import Mathlib

/-!
Verification development for the Dify / Vertex AI Hebrew integration scripts.

The Python sources are embedded shallowly:

* `vertex_ai_provider.py` — the model-call wrapper (`VertexAIProvider`), the
  Hebrew detector and the Hebrew prompt enhancer.
* `dify_vertex_ai_integration.py` — the integration layer
  (`DifyVertexAIIntegration`), including the message flattener.
* `agents_orchestrator.py` — the four-step multi-agent router
  (`MultiAgentOrchestrator`).

External collaborators (the Vertex AI generation API, the Anthropic chat
model, and the Python standard-library functions `json.loads` and `str`) are
modelled as explicit function parameters, so every theorem quantifies over
their behaviour.  Python floats only flow through the code unchanged (no
arithmetic is performed on them) so they are represented exactly by `ℚ`.
-/

namespace DifyGcpHebrew

/-- Python `str.split()` with no arguments: split on runs of whitespace,
dropping empty pieces. -/
def pySplit (s : String) : List String :=
  (s.split Char.isWhitespace).filter (fun t => !t.isEmpty)

/-- Python `repr` of a list of strings, as produced by an f-string such as
`f"... \x7blist(self.available_models.keys())\x7d"`. -/
def pyListReprStr (xs : List String) : String :=
  "[" ++ String.intercalate ", " (xs.map (fun s => "\x27" ++ s ++ "\x27")) ++ "]"

/-! ## `vertex_ai_provider.py` -/

namespace VertexAIProvider

/-- `_contains_hebrew` (vertex_ai_provider.py lines 201–203): Python
`any('\u0590' <= char <= '\u05FF' for char in text)`. -/
def contains_hebrew (text : String) : Bool :=
  text.data.any (fun c => decide ('\u0590' ≤ c ∧ c ≤ '\u05FF'))

/-- The fixed Hebrew instruction block of `_prepare_hebrew_prompt`
(vertex_ai_provider.py lines 80–82). -/
def hebrew_instructions : String :=
  "אנא השב בעברית בצורה ברורה ומדויקת. \nשים לב לכיווניות הטקסט (RTL) ולתקינות הדקדוק העברי.\n"

/-- `_prepare_hebrew_prompt` (vertex_ai_provider.py lines 70–91): prepend the
instruction block (with a blank-line separator) when the prompt already
contains Hebrew, append it otherwise. -/
def prepare_hebrew_prompt (prompt : String) : String :=
  let has_hebrew := prompt.data.any (fun c => decide ('\u0590' ≤ c ∧ c ≤ '\u05FF'))
  if has_hebrew then
    hebrew_instructions ++ "\n\n" ++ prompt
  else
    prompt ++ "\n\n" ++ hebrew_instructions

/-- One entry of the `available_models` registry (vertex_ai_provider.py
lines 47–62). -/
structure ModelConfig where
  name : String
  model_id : String
  max_tokens : Int
  supports_hebrew : Bool
  description : String

/-- The static model registry `self.available_models` built in `__init__`
(vertex_ai_provider.py lines 47–62). -/
def available_models : List (String × ModelConfig) :=
  [("gemini-pro",
    { name := "Gemini Pro"
      model_id := "gemini-1.5-pro"
      max_tokens := 8192
      supports_hebrew := true
      description := "Advanced multimodal model with Hebrew RTL support" }),
   ("gemini-flash",
    { name := "Gemini Flash"
      model_id := "gemini-1.5-flash"
      max_tokens := 8192
      supports_hebrew := true
      description := "Fast, efficient model optimized for Hebrew conversations" })]

/-- The `generation_config` dictionary passed to the external API
(vertex_ai_provider.py lines 130–136). -/
structure GenerationConfig where
  max_output_tokens : Int
  temperature : ℚ
  top_p : ℚ
  top_k : Int

/-- Construction of the generation configuration (vertex_ai_provider.py
lines 131–136): `max_output_tokens` is `min(max_tokens, model ceiling)`,
`temperature` is passed through, `top_p` and `top_k` are fixed literals. -/
def generation_config (model_config : ModelConfig) (max_tokens : Int)
    (temperature : ℚ) : GenerationConfig :=
  { max_output_tokens := min max_tokens model_config.max_tokens
    temperature := temperature
    top_p := 0.95
    top_k := 40 }

/-- The metadata sub-dictionary of a success record (vertex_ai_provider.py
lines 154–159). -/
structure GenMetadata where
  project_id : String
  location : String
  temperature : ℚ
  max_tokens : Int

/-- The dictionary returned by `generate_response`.  The success record
(lines 147–160) and the failure record (lines 164–169) of
vertex_ai_provider.py carry different key sets; `Option` fields record which
keys are present. -/
structure GenResult where
  success : Bool
  response : Option String
  model : String
  error : Option String
  model_id : Option String
  tokens_used : Option Int
  supports_hebrew : Option Bool
  metadata : Option GenMetadata

end VertexAIProvider

/-- The provider object's own state: the constructor arguments retained on
`self` (vertex_ai_provider.py lines 35–36). -/
structure VertexAIProvider where
  project_id : String
  location : String

/-- The external Vertex AI generation call: given the model id, the prompt
text and the generation configuration, either raise (an exception whose
string representation is returned in `Except.error`) or return the value of
`response.text` (`none` models a falsy/absent text, which the source
replaces by `""` on line 145). -/
def VertexApi : Type :=
  String → String → VertexAIProvider.GenerationConfig → Except String (Option String)

/-- `VertexAIProvider.generate_response` (vertex_ai_provider.py lines
93–169).  The whole body sits inside `try`/`except Exception`; the inner
`Except` computation models the `try` block and the outer match models the
`except` clause, which converts any exception into a failure record. -/
def VertexAIProvider.generate_response (p : VertexAIProvider) (api : VertexApi)
    (prompt : String) (model_name : String) (max_tokens : Int)
    (temperature : ℚ) (enable_hebrew : Bool) : VertexAIProvider.GenResult :=
  let attempt : Except String VertexAIProvider.GenResult :=
    match VertexAIProvider.available_models.lookup model_name with
    | none =>
        Except.error ("Model " ++ model_name ++ " not available. Choose from: "
          ++ pyListReprStr (VertexAIProvider.available_models.map (·.1)))
    | some model_config =>
        let enhanced_prompt :=
          if enable_hebrew then VertexAIProvider.prepare_hebrew_prompt prompt else prompt
        match api model_config.model_id enhanced_prompt
            (VertexAIProvider.generation_config model_config max_tokens temperature) with
        | Except.error e => Except.error e
        | Except.ok text =>
            let response_text := text.getD ""
            Except.ok
              { success := true
                response := some response_text
                model := model_name
                error := none
                model_id := some model_config.model_id
                tokens_used :=
                  some (if response_text.isEmpty then 0 else (pySplit response_text).length)
                supports_hebrew := some model_config.supports_hebrew
                metadata := some
                  { project_id := p.project_id
                    location := p.location
                    temperature := temperature
                    max_tokens := max_tokens } }
  match attempt with
  | Except.ok r => r
  | Except.error e =>
      { success := false
        response := none
        model := model_name
        error := some e
        model_id := none
        tokens_used := none
        supports_hebrew := none
        metadata := none }

/-! ## `dify_vertex_ai_integration.py` -/

namespace DifyVertexAIIntegration

/-- One Dify message dictionary as consumed by `_messages_to_prompt` and
`generate_response`.  The source reads it with `message.get("role", "user")`
and `message.get("content", "")`, so absent keys are modelled by `none`. -/
structure DifyMessage where
  role : Option String
  content : Option String

/-- `_contains_hebrew` (dify_vertex_ai_integration.py lines 386–388), a
verbatim copy of the provider's detector. -/
def contains_hebrew (text : String) : Bool :=
  text.data.any (fun c => decide ('\u0590' ≤ c ∧ c ≤ '\u05FF'))

/-- The loop body of `_messages_to_prompt` (dify_vertex_ai_integration.py
lines 317–328): build the list `prompt_parts`, keeping `"System: "`,
`"User: "` and `"Assistant: "` lines and silently dropping any other role. -/
def prompt_parts : List DifyMessage → List String
  | [] => []
  | message :: rest =>
      let role := message.role.getD "user"
      let content := message.content.getD ""
      if role = "system" then ("System: " ++ content) :: prompt_parts rest
      else if role = "user" then ("User: " ++ content) :: prompt_parts rest
      else if role = "assistant" then ("Assistant: " ++ content) :: prompt_parts rest
      else prompt_parts rest

/-- `_messages_to_prompt` (dify_vertex_ai_integration.py lines 307–330):
join the retained lines with `"\n\n"`. -/
def messages_to_prompt (messages : List DifyMessage) : String :=
  String.intercalate "\n\n" (prompt_parts messages)

/-- Restatement of the flattener from the spec's words, for the refinement
theorem: map each message to its tagged line (or drop it) and join with
blank-line separators. -/
def spec_role_line (message : DifyMessage) : Option String :=
  match message.role.getD "user" with
  | "system" => some ("System: " ++ message.content.getD "")
  | "user" => some ("User: " ++ message.content.getD "")
  | "assistant" => some ("Assistant: " ++ message.content.getD "")
  | _ => none

/-- One parameter rule of the static `model_configs` table
(dify_vertex_ai_integration.py lines 52–57 and 67–72). -/
structure ParamRule where
  ptype : String
  min : ℚ
  max : ℚ
  default : ℚ

/-- One entry of `self.model_configs` (dify_vertex_ai_integration.py
lines 43–74). -/
structure DifyModelConfig where
  model_name : String
  model_type : String
  mode : String
  context_size : Int
  max_chunks : Int
  chunk_size : Int
  credentials : List String
  parameters : List (String × ParamRule)

/-- The static `self.model_configs` table built in `__init__`
(dify_vertex_ai_integration.py lines 43–74). -/
def model_configs : List (String × DifyModelConfig) :=
  [("gemini-pro",
    { model_name := "gemini-pro"
      model_type := "llm"
      mode := "chat"
      context_size := 30720
      max_chunks := 1
      chunk_size := 4000
      credentials := ["project_id", "location", "service_account_key"]
      parameters :=
        [("temperature", { ptype := "float", min := 0, max := 1, default := 0.7 }),
         ("max_tokens", { ptype := "int", min := 1, max := 8192, default := 1024 }),
         ("top_p", { ptype := "float", min := 0, max := 1, default := 0.95 }),
         ("top_k", { ptype := "int", min := 1, max := 100, default := 40 })] }),
   ("gemini-flash",
    { model_name := "gemini-flash"
      model_type := "llm"
      mode := "chat"
      context_size := 30720
      max_chunks := 1
      chunk_size := 4000
      credentials := ["project_id", "location", "service_account_key"]
      parameters :=
        [("temperature", { ptype := "float", min := 0, max := 1, default := 0.3 }),
         ("max_tokens", { ptype := "int", min := 1, max := 8192, default := 1024 }),
         ("top_p", { ptype := "float", min := 0, max := 1, default := 0.95 }),
         ("top_k", { ptype := "int", min := 1, max := 100, default := 40 })] })]

/-- The generation `parameters` dictionary passed by the caller; the source
reads only `parameters.get("temperature", 0.7)` and
`parameters.get("max_tokens", 1024)` (lines 279–280), so absent keys are
modelled by `none`. -/
structure DifyParams where
  temperature : Option ℚ
  max_tokens : Option Int

/-- The exceptions `DifyVertexAIIntegration.generate_response` can raise
(dify_vertex_ai_integration.py lines 269–292), plus the `KeyError` a Python
dict subscript would raise were a key absent (unreachable from the wrapper's
actual records). -/
inductive DifyError where
  | runtimeError (msg : String)
  | valueError (msg : String)
  | keyError (key : String)

/-- The `usage` sub-dictionary of the returned record
(dify_vertex_ai_integration.py lines 296–300). -/
structure DifyUsage where
  prompt_tokens : Int
  completion_tokens : Int
  total_tokens : Int

/-- The `message` sub-dictionary of the returned record
(dify_vertex_ai_integration.py lines 301–304). -/
structure DifyChatMessage where
  role : String
  content : String

/-- The record returned by `DifyVertexAIIntegration.generate_response` on
success (dify_vertex_ai_integration.py lines 294–305). -/
structure DifyChatResult where
  model : String
  usage : DifyUsage
  message : DifyChatMessage

end DifyVertexAIIntegration

/-- The integration object's state relevant to `generate_response`: the
`self.vertex_provider` field, `None` until `initialize_provider` succeeds
(dify_vertex_ai_integration.py line 40). -/
structure DifyVertexAIIntegration where
  vertex_provider : Option VertexAIProvider

/-- `DifyVertexAIIntegration.generate_response` (dify_vertex_ai_integration.py
lines 250–305).  Unlike the wrapper it raises: `Except.error` carries the
exception.  Dict subscripts on the wrapper's record (`response["error"]`,
`response["tokens_used"]`, `response["response"]`) are modelled by matches
whose `none` branch is the `KeyError` Python would raise. -/
def DifyVertexAIIntegration.generate_response (ig : DifyVertexAIIntegration)
    (api : VertexApi) (model : String)
    (messages : List DifyVertexAIIntegration.DifyMessage)
    (parameters : DifyVertexAIIntegration.DifyParams) :
    Except DifyVertexAIIntegration.DifyError DifyVertexAIIntegration.DifyChatResult :=
  match ig.vertex_provider with
  | none => Except.error (.runtimeError "Vertex AI provider not initialized")
  | some vertex_provider =>
      match DifyVertexAIIntegration.model_configs.lookup model with
      | none => Except.error (.valueError ("Model " ++ model ++ " not supported"))
      | some _ =>
          let prompt := DifyVertexAIIntegration.messages_to_prompt messages
          let temperature := parameters.temperature.getD 0.7
          let max_tokens := parameters.max_tokens.getD 1024
          let response :=
            vertex_provider.generate_response api prompt model max_tokens temperature true
          if !response.success then
            match response.error with
            | some e => Except.error (.runtimeError ("Generation failed: " ++ e))
            | none => Except.error (.keyError "error")
          else
            match response.tokens_used, response.response with
            | some tokens_used, some content =>
                Except.ok
                  { model := model
                    usage :=
                      { prompt_tokens := (pySplit prompt).length
                        completion_tokens := tokens_used
                        total_tokens := (pySplit prompt).length + tokens_used }
                    message := { role := "assistant", content := content } }
            | none, _ => Except.error (.keyError "tokens_used")
            | _, none => Except.error (.keyError "response")

/-! ## `agents_orchestrator.py`

The router's shared state carries Python values flowing out of
`json.loads`, so a small dynamic-value type `JValue` stands for arbitrary
JSON data.  The Anthropic chat model (`self.llm.invoke`) and the standard
library (`json.loads`, `str`) are bundled into a `PyEnv` of abstract
functions the orchestrator is parameterised over. -/

namespace Orchestrator

/-- A Python value produced by `json.loads`. -/
inductive JValue where
  | null
  | bool (b : Bool)
  | str (s : String)
  | num (q : ℚ)
  | arr (xs : List JValue)
  | obj (fields : List (String × JValue))

/-- Python truthiness of a JSON value, as used by
`if result.get("approved", False)`-style tests. -/
def pyTruthy : JValue → Bool
  | .null => false
  | .bool b => b
  | .str s => !s.isEmpty
  | .num q => decide (q ≠ 0)
  | .arr xs => !xs.isEmpty
  | .obj fields => !fields.isEmpty

/-- Python `dict.get(key, default)` on a parsed JSON object. -/
def dictGet (fields : List (String × JValue)) (key : String) (default : JValue) :
    JValue :=
  match fields.lookup key with
  | some v => v
  | none => default

/-- Python `\x7b**d, key: v\x7d`: replace the value of an existing key in
place, otherwise append the new binding at the end. -/
def dictSet : List (String × JValue) → String → JValue → List (String × JValue)
  | [], key, v => [(key, v)]
  | (k0, v0) :: rest, key, v =>
      if k0 = key then (k0, v) :: rest else (k0, v0) :: dictSet rest key v

/-- A LangChain chat message held in the shared history: the initial
`HumanMessage` and the `AIMessage`s appended by the handlers. -/
inductive ChatMsg where
  | human (content : String)
  | ai (content : String)

/-- The shared `AgentState` (agents_orchestrator.py lines 16–22).
`current_task` and `next_agent` hold whatever `dict.get` returned from the
parsed reply, so they are `JValue`s; `completed_tasks` likewise accumulates
`JValue`s. -/
structure AgentState where
  messages : List ChatMsg
  current_task : JValue
  completed_tasks : List JValue
  context : List (String × JValue)
  next_agent : JValue

/-- The external collaborators of the orchestrator: the Anthropic chat model
(`llm` maps the role/content pairs sent to `self.llm.invoke` to the reply's
`content`), Python's `json.loads` (`none` models a raised `JSONDecodeError`,
and any successful parse of a non-object makes the subsequent `.get` raise,
which the handlers' bare `except` also catches), Python's `str()` on a
non-string value, and Python's `str()` on the context dict. -/
structure PyEnv where
  llm : List (String × String) → String
  jsonLoads : String → Option JValue
  pyStr : JValue → String
  strDict : List (String × JValue) → String

/-- Interpolation of a dynamic value into an f-string: Python `str()` is the
identity on `str` and `pyStr` models it on everything else. -/
def fmtVal (env : PyEnv) : JValue → String
  | .str s => s
  | v => env.pyStr v

/-- The planner's system prompt (agents_orchestrator.py lines 50–63). -/
def planner_system_prompt : String :=
  "\n        אתה סוכן תכנון חכם. המשימה שלך:\n        1. לנתח את הבקשה של המשתמש\n        2. לחלק אותה למשימות קטנות\n        3. להחליט איזה סוכן צריך לבצע כל משימה\n        4. לתת הוראות ברורות\n        \n        השב תמיד בפורמט JSON:\n        \x7b\n          \"plan\": [\"משימה 1\", \"משימה 2\"],\n          \"next_agent\": \"researcher/coder/reviewer\",\n          \"instructions\": \"הוראות ספציפיות\"\n        \x7d\n        "

/-- The researcher's system prompt (agents_orchestrator.py lines 91–103). -/
def researcher_system_prompt : String :=
  "\n        אתה סוכן מחקר מקצועי. המשימה שלך:\n        1. לחקור ולאסוף מידע רלוונטי\n        2. לנתח ולסכם את הממצאים\n        3. להמליץ על הצעד הבא\n        \n        השב תמיד בפורמט JSON:\n        \x7b\n          \"research_results\": \"סיכום הממצאים\",\n          \"recommendations\": \"המלצות לצעד הבא\",\n          \"next_agent\": \"coder/planner/reviewer\"\n        \x7d\n        "

/-- The coder's system prompt (agents_orchestrator.py lines 130–142). -/
def coder_system_prompt : String :=
  "\n        אתה מפתח תוכנה מומחה. המשימה שלך:\n        1. לכתוב קוד איכותי ומתועד\n        2. לפתור בעיות טכניות\n        3. להציע פתרונות יעילים\n        \n        השב תמיד בפורמט JSON:\n        \x7b\n          \"code\": \"הקוד שנכתב\",\n          \"explanation\": \"הסבר על הקוד\",\n          \"next_agent\": \"reviewer/planner\"\n        \x7d\n        "

/-- The reviewer's system prompt (agents_orchestrator.py lines 169–181). -/
def reviewer_system_prompt : String :=
  "\n        אתה סוכן ביקורת קפדני. המשימה שלך:\n        1. לבדוק את איכות העבודה\n        2. להציע שיפורים\n        3. להחליט אם סיימנו או צריך עוד עבודה\n        \n        השב תמיד בפורמט JSON:\n        \x7b\n          \"review\": \"ביקורת מפורטת\",\n          \"approved\": true/false,\n          \"next_agent\": \"END/planner/coder\"\n        \x7d\n        "

/-- The role tag used when forwarding a history message to the model
(agents_orchestrator.py line 67): `"human"` for a `HumanMessage`,
`"assistant"` otherwise. -/
def langchainRole : ChatMsg → String × String
  | .human c => ("human", c)
  | .ai c => ("assistant", c)

/-- The message list `planner_logic` sends to the model
(agents_orchestrator.py lines 66–68). -/
def planner_messages (state : AgentState) : List (String × String) :=
  ("system", planner_system_prompt) :: state.messages.map langchainRole

/-- The message list `researcher_logic` sends to the model
(agents_orchestrator.py lines 106–107). -/
def researcher_messages (env : PyEnv) (state : AgentState) : List (String × String) :=
  [("system", researcher_system_prompt),
   ("human", "חקור: " ++ fmtVal env state.current_task)]

/-- The message list `coder_logic` sends to the model
(agents_orchestrator.py lines 145–146). -/
def coder_messages (env : PyEnv) (state : AgentState) : List (String × String) :=
  [("system", coder_system_prompt),
   ("human", "כתוב קוד עבור: " ++ fmtVal env state.current_task)]

/-- The message list `reviewer_logic` sends to the model
(agents_orchestrator.py lines 184–185). -/
def reviewer_messages (env : PyEnv) (state : AgentState) : List (String × String) :=
  [("system", reviewer_system_prompt),
   ("human", "בדוק: " ++ env.strDict state.context)]

/-- `planner_logic` (agents_orchestrator.py lines 65–85).  The handler
returns a partial state update that LangGraph merges into the existing
state; fields absent from the update are written here as the unchanged
input fields.  A reply that parses to a non-object makes `result.get` raise
and lands, like a parse failure, in the bare `except` branch. -/
def planner_logic (env : PyEnv) (state : AgentState) : AgentState :=
  let content := env.llm (planner_messages state)
  match env.jsonLoads content with
  | some (.obj result) =>
      { messages := state.messages ++ [.ai content]
        current_task := dictGet result "instructions" (.str "")
        completed_tasks := state.completed_tasks
        context := dictSet state.context "plan" (dictGet result "plan" (.arr []))
        next_agent := dictGet result "next_agent" (.str "researcher") }
  | _ =>
      { messages := state.messages ++ [.ai content]
        current_task := state.current_task
        completed_tasks := state.completed_tasks
        context := state.context
        next_agent := .str "researcher" }

/-- `researcher_logic` (agents_orchestrator.py lines 105–124). -/
def researcher_logic (env : PyEnv) (state : AgentState) : AgentState :=
  let content := env.llm (researcher_messages env state)
  match env.jsonLoads content with
  | some (.obj result) =>
      { messages := state.messages ++ [.ai content]
        current_task := state.current_task
        completed_tasks := state.completed_tasks ++ [state.current_task]
        context := dictSet state.context "research" (.obj result)
        next_agent := dictGet result "next_agent" (.str "coder") }
  | _ =>
      { messages := state.messages ++ [.ai content]
        current_task := state.current_task
        completed_tasks := state.completed_tasks
        context := state.context
        next_agent := .str "coder" }

/-- `coder_logic` (agents_orchestrator.py lines 144–163). -/
def coder_logic (env : PyEnv) (state : AgentState) : AgentState :=
  let content := env.llm (coder_messages env state)
  match env.jsonLoads content with
  | some (.obj result) =>
      { messages := state.messages ++ [.ai content]
        current_task := state.current_task
        completed_tasks := state.completed_tasks ++ [state.current_task]
        context := dictSet state.context "code" (.obj result)
        next_agent := dictGet result "next_agent" (.str "reviewer") }
  | _ =>
      { messages := state.messages ++ [.ai content]
        current_task := state.current_task
        completed_tasks := state.completed_tasks
        context := state.context
        next_agent := .str "reviewer" }

/-- `reviewer_logic` (agents_orchestrator.py lines 183–206): an `approved`
value that is truthy forces `next_agent = "END"` regardless of the reply's
own `next_agent`. -/
def reviewer_logic (env : PyEnv) (state : AgentState) : AgentState :=
  let content := env.llm (reviewer_messages env state)
  match env.jsonLoads content with
  | some (.obj result) =>
      let next_step :=
        if pyTruthy (dictGet result "approved" (.bool false)) then JValue.str "END"
        else dictGet result "next_agent" (.str "planner")
      { messages := state.messages ++ [.ai content]
        current_task := state.current_task
        completed_tasks := state.completed_tasks ++ [.str "review"]
        context := dictSet state.context "review" (.obj result)
        next_agent := next_step }
  | _ =>
      { messages := state.messages ++ [.ai content]
        current_task := state.current_task
        completed_tasks := state.completed_tasks
        context := state.context
        next_agent := .str "END" }

/-- The keys of `self.agents` (agents_orchestrator.py lines 38–43), in
insertion order. -/
def agentNames : List String := ["planner", "researcher", "coder", "reviewer"]

/-- Dispatch of `self.agents[name]`: the four handler closures registered as
graph nodes (agents_orchestrator.py lines 38–43 and 213–214). -/
def agent_step (env : PyEnv) (name : String) (state : AgentState) : AgentState :=
  if name = "planner" then planner_logic env state
  else if name = "researcher" then researcher_logic env state
  else if name = "coder" then coder_logic env state
  else reviewer_logic env state

/-- Outcome of the conditional router `route_next`
(agents_orchestrator.py lines 220–224). -/
inductive RouteResult where
  | to (name : String)
  | terminal
  | typeError

/-- `route_next` (agents_orchestrator.py lines 220–224): a string naming a
registered agent routes there, any other hashable value falls through to
`END`, and an unhashable value (a JSON array or object) would make the
Python `in` test raise `TypeError`. -/
def route_next (state : AgentState) : RouteResult :=
  match state.next_agent with
  | .str s => if agentNames.contains s then .to s else .terminal
  | .arr _ => .typeError
  | .obj _ => .typeError
  | _ => .terminal

/-- How a workflow run ends. -/
inductive RunOutcome where
  | terminated
  | fuelExhausted
  | raisedTypeError

/-- Execution of the compiled LangGraph workflow from a given node: run the
node's handler, consult `route_next`, and continue until the `END` sentinel.
The graph itself has no step bound (the `Nat` fuel only models the host
framework's recursion limit), and the returned list records the visited
nodes in order. -/
def runFrom (env : PyEnv) : Nat → String → AgentState →
    List String × AgentState × RunOutcome
  | 0, _, state => ([], state, .fuelExhausted)
  | fuel + 1, name, state =>
      let state' := agent_step env name state
      match route_next state' with
      | .terminal => ([name], state', .terminated)
      | .typeError => ([name], state', .raisedTypeError)
      | .to next =>
          let rest := runFrom env fuel next state'
          (name :: rest.1, rest.2.1, rest.2.2)

/-- The initial state built by `run` (agents_orchestrator.py lines 238–244). -/
def initial_state (user_input : String) : AgentState :=
  { messages := [.human user_input]
    current_task := .str user_input
    completed_tasks := []
    context := []
    next_agent := .str "planner" }

/-- A workflow run: `workflow.invoke(initial_state)` starting at the entry
point `planner` (agents_orchestrator.py lines 217 and 246–247). -/
def run_workflow (env : PyEnv) (fuel : Nat) (user_input : String) :
    List String × AgentState × RunOutcome :=
  runFrom env fuel "planner" (initial_state user_input)

end Orchestrator

/-! ## Theorems -/

/-- Helper: the flattener's loop is the order-preserving `filterMap` of the
per-message tagged line. -/
theorem prompt_parts_eq_filterMap (msgs : List DifyVertexAIIntegration.DifyMessage) :
    DifyVertexAIIntegration.prompt_parts msgs =
      msgs.filterMap DifyVertexAIIntegration.spec_role_line := by
  induction msgs with
  | nil => rfl
  | cons m rest ih =>
      rw [List.filterMap_cons]
      show (if m.role.getD "user" = "system" then
          ("System: " ++ m.content.getD "") :: DifyVertexAIIntegration.prompt_parts rest
        else if m.role.getD "user" = "user" then
          ("User: " ++ m.content.getD "") :: DifyVertexAIIntegration.prompt_parts rest
        else if m.role.getD "user" = "assistant" then
          ("Assistant: " ++ m.content.getD "") :: DifyVertexAIIntegration.prompt_parts rest
        else DifyVertexAIIntegration.prompt_parts rest) = _
      by_cases h1 : m.role.getD "user" = "system"
      · have hs : DifyVertexAIIntegration.spec_role_line m =
            some ("System: " ++ m.content.getD "") := by
          simp [DifyVertexAIIntegration.spec_role_line, h1]
        simp [h1, hs, ih]
      · by_cases h2 : m.role.getD "user" = "user"
        · have hs : DifyVertexAIIntegration.spec_role_line m =
              some ("User: " ++ m.content.getD "") := by
            simp [DifyVertexAIIntegration.spec_role_line, h2]
          simp [h1, h2, hs, ih]
        · by_cases h3 : m.role.getD "user" = "assistant"
          · have hs : DifyVertexAIIntegration.spec_role_line m =
                some ("Assistant: " ++ m.content.getD "") := by
              simp [DifyVertexAIIntegration.spec_role_line, h3]
            simp [h1, h2, h3, hs, ih]
          · have hs : DifyVertexAIIntegration.spec_role_line m = none := by
              unfold DifyVertexAIIntegration.spec_role_line
              split
              · exact absurd (by assumption) h1
              · exact absurd (by assumption) h2
              · exact absurd (by assumption) h3
              · rfl
            simp [h1, h2, h3, hs, ih]

/-- C1 counterexample: the claim says the temperature sent to the external
API is clamped to `[0,1]`, but `generate_response` builds the generation
configuration with the caller's temperature unchanged — at the registered
model `gemini-pro` with caller temperature `2`, the configuration carries
temperature `2`, outside `[0,1]`. -/
theorem generation_config_temperature_unclamped_cx :
    VertexAIProvider.available_models.lookup "gemini-pro" = some
      { name := "Gemini Pro", model_id := "gemini-1.5-pro", max_tokens := 8192,
        supports_hebrew := true,
        description := "Advanced multimodal model with Hebrew RTL support" } ∧
    (VertexAIProvider.generation_config
      { name := "Gemini Pro", model_id := "gemini-1.5-pro", max_tokens := 8192,
        supports_hebrew := true,
        description := "Advanced multimodal model with Hebrew RTL support" }
      1024 2).temperature = 2 ∧
    ¬ ((VertexAIProvider.generation_config
      { name := "Gemini Pro", model_id := "gemini-1.5-pro", max_tokens := 8192,
        supports_hebrew := true,
        description := "Advanced multimodal model with Hebrew RTL support" }
      1024 2).temperature ≤ 1) := by
  refine ⟨rfl, rfl, ?_⟩
  norm_num [VertexAIProvider.generation_config]

/-- C1 (amended): in the generation configuration `generate_response` passes
to the external API, max output tokens is clamped to the per-model ceiling
(and agrees with the caller's value whenever that value is within the
ceiling), temperature is the caller's value passed through unchanged, and
top-p and top-k are the fixed defaults 0.95 and 40, not taken from the
caller. -/
theorem generation_config_params_amended (cfg : VertexAIProvider.ModelConfig)
    (max_tokens : Int) (temperature : ℚ) :
    (VertexAIProvider.generation_config cfg max_tokens temperature).max_output_tokens
        ≤ cfg.max_tokens ∧
    (max_tokens ≤ cfg.max_tokens →
      (VertexAIProvider.generation_config cfg max_tokens temperature).max_output_tokens
        = max_tokens) ∧
    (VertexAIProvider.generation_config cfg max_tokens temperature).temperature
        = temperature ∧
    (VertexAIProvider.generation_config cfg max_tokens temperature).top_p = 0.95 ∧
    (VertexAIProvider.generation_config cfg max_tokens temperature).top_k = 40 :=
  ⟨min_le_right _ _, fun h => min_eq_left h, rfl, rfl, rfl⟩

/-- Witness for the amended C1 theorem at `gemini-pro`, caller max tokens
1024 (within the 8192 ceiling) and temperature 1/2. -/
theorem generation_config_params_amended_witness :
    (VertexAIProvider.generation_config
      { name := "Gemini Pro", model_id := "gemini-1.5-pro", max_tokens := 8192,
        supports_hebrew := true,
        description := "Advanced multimodal model with Hebrew RTL support" }
      1024 (1/2)).max_output_tokens = 1024 :=
  (generation_config_params_amended _ 1024 (1/2)).2.1 (by decide)

/-- C6: the Hebrew detector returns `true` exactly when some character of
the text lies in the Unicode block U+0590–U+05FF; it returns `false` on
every all-ASCII string and on the empty string, and the integration layer's
copy agrees with the provider's. -/
theorem contains_hebrew_spec (t : String) :
    (VertexAIProvider.contains_hebrew t = true ↔
      ∃ c ∈ t.data, 0x0590 ≤ c.toNat ∧ c.toNat ≤ 0x05FF) ∧
    ((∀ c ∈ t.data, c.toNat < 128) → VertexAIProvider.contains_hebrew t = false) ∧
    VertexAIProvider.contains_hebrew "" = false ∧
    DifyVertexAIIntegration.contains_hebrew t = VertexAIProvider.contains_hebrew t := by
  have hiff : VertexAIProvider.contains_hebrew t = true ↔
      ∃ c ∈ t.data, 0x0590 ≤ c.toNat ∧ c.toNat ≤ 0x05FF := by
    simp only [VertexAIProvider.contains_hebrew, List.any_eq_true, decide_eq_true_eq]
    exact ⟨fun ⟨c, hc, h⟩ => ⟨c, hc, h⟩, fun ⟨c, hc, h⟩ => ⟨c, hc, h⟩⟩
  refine ⟨hiff, ?_, by decide, rfl⟩
  intro hascii
  by_contra hne
  have htrue : VertexAIProvider.contains_hebrew t = true := by
    cases h : VertexAIProvider.contains_hebrew t with
    | true => rfl
    | false => exact absurd h hne
  obtain ⟨c, hc, hlo, _⟩ := hiff.mp htrue
  have := hascii c hc
  omega

/-- Witness for C6 at the all-ASCII string `"hello"`. -/
theorem contains_hebrew_spec_witness :
    VertexAIProvider.contains_hebrew "hello" = false :=
  (contains_hebrew_spec "hello").2.1 (by decide)

/-- C7: the Hebrew enhancer prepends the fixed instruction block (with a
blank-line separator) when the input contains Hebrew and appends it
otherwise; for every input, including the empty string, the result is
strictly longer than the input and contains the input as a substring. -/
theorem prepare_hebrew_prompt_spec (p : String) :
    (VertexAIProvider.contains_hebrew p = true →
      VertexAIProvider.prepare_hebrew_prompt p =
        VertexAIProvider.hebrew_instructions ++ "\n\n" ++ p) ∧
    (VertexAIProvider.contains_hebrew p = false →
      VertexAIProvider.prepare_hebrew_prompt p =
        p ++ "\n\n" ++ VertexAIProvider.hebrew_instructions) ∧
    p.length < (VertexAIProvider.prepare_hebrew_prompt p).length ∧
    ∃ a b, VertexAIProvider.prepare_hebrew_prompt p = a ++ p ++ b := by
  have hlen : 0 < VertexAIProvider.hebrew_instructions.length := by decide
  have hdef : VertexAIProvider.prepare_hebrew_prompt p =
      if VertexAIProvider.contains_hebrew p = true then
        VertexAIProvider.hebrew_instructions ++ "\n\n" ++ p
      else p ++ "\n\n" ++ VertexAIProvider.hebrew_instructions := by
    simp only [VertexAIProvider.prepare_hebrew_prompt, VertexAIProvider.contains_hebrew,
      Bool.if_true_left]
  by_cases h : VertexAIProvider.contains_hebrew p = true
  · rw [hdef, if_pos h]
    refine ⟨fun _ => rfl, fun hf => ?_, ?_, ?_⟩
    · rw [h] at hf; exact absurd hf (by simp)
    · simp only [String.length_append]; omega
    · exact ⟨VertexAIProvider.hebrew_instructions ++ "\n\n", "",
        by rw [String.append_empty]⟩
  · rw [hdef, if_neg h]
    refine ⟨fun ht => absurd ht h, fun _ => rfl, ?_, ?_⟩
    · simp only [String.length_append]; omega
    · exact ⟨"", "\n\n" ++ VertexAIProvider.hebrew_instructions, by
        rw [String.empty_append, String.append_assoc]⟩

/-- Witness for C7 at the all-ASCII input `"hello"`: the instruction block
is appended. -/
theorem prepare_hebrew_prompt_spec_witness :
    VertexAIProvider.prepare_hebrew_prompt "hello" =
      "hello" ++ "\n\n" ++ VertexAIProvider.hebrew_instructions :=
  (prepare_hebrew_prompt_spec "hello").2.1 (by decide)

/-- C8: the message flattener is the blank-line-separated, order-preserving
join of the tagged lines of the recognized roles (`system`, `user`,
`assistant`); unrecognized roles are silently dropped, and on the
three-message example the markers appear in input order. -/
theorem messages_to_prompt_spec (msgs : List DifyVertexAIIntegration.DifyMessage) :
    DifyVertexAIIntegration.messages_to_prompt msgs =
      String.intercalate "\n\n"
        (msgs.filterMap DifyVertexAIIntegration.spec_role_line) ∧
    DifyVertexAIIntegration.messages_to_prompt
        [{ role := some "system", content := some "a" },
         { role := some "user", content := some "b" },
         { role := some "assistant", content := some "c" },
         { role := some "tool", content := some "dropped" }] =
      "System: a\n\nUser: b\n\nAssistant: c" := by
  refine ⟨?_, rfl⟩
  unfold DifyVertexAIIntegration.messages_to_prompt
  rw [prompt_parts_eq_filterMap]

/-- C2: the model-call wrapper never raises.  For an unregistered model
name it returns the failure record whose error references the unknown name
and lists the valid names; for a registered model, if the external API
raises it returns a failure record carrying the exception's string
representation with a null response, and if the external API succeeds it
returns a success record. -/
theorem vertex_generate_response_never_raises (p : VertexAIProvider)
    (api : VertexApi) (prompt model_name : String) (max_tokens : Int)
    (temperature : ℚ) (enable_hebrew : Bool) :
    (VertexAIProvider.available_models.lookup model_name = none →
      p.generate_response api prompt model_name max_tokens temperature enable_hebrew =
        { success := false
          response := none
          model := model_name
          error := some ("Model " ++ model_name ++ " not available. Choose from: "
            ++ "[\x27gemini-pro\x27, \x27gemini-flash\x27]")
          model_id := none
          tokens_used := none
          supports_hebrew := none
          metadata := none }) ∧
    (∀ cfg, VertexAIProvider.available_models.lookup model_name = some cfg →
      (∀ e, api cfg.model_id
          (if enable_hebrew then VertexAIProvider.prepare_hebrew_prompt prompt
           else prompt)
          (VertexAIProvider.generation_config cfg max_tokens temperature)
          = Except.error e →
        (p.generate_response api prompt model_name max_tokens temperature
            enable_hebrew).success = false ∧
        (p.generate_response api prompt model_name max_tokens temperature
            enable_hebrew).error = some e ∧
        (p.generate_response api prompt model_name max_tokens temperature
            enable_hebrew).response = none) ∧
      (∀ text, api cfg.model_id
          (if enable_hebrew then VertexAIProvider.prepare_hebrew_prompt prompt
           else prompt)
          (VertexAIProvider.generation_config cfg max_tokens temperature)
          = Except.ok text →
        (p.generate_response api prompt model_name max_tokens temperature
            enable_hebrew).success = true ∧
        (p.generate_response api prompt model_name max_tokens temperature
            enable_hebrew).response = some (text.getD "") ∧
        (p.generate_response api prompt model_name max_tokens temperature
            enable_hebrew).error = none)) := by
  refine ⟨?_, ?_⟩
  · intro hnone
    simp only [VertexAIProvider.generate_response, hnone]
    rfl
  · intro cfg hcfg
    refine ⟨?_, ?_⟩
    · intro e he
      simp [VertexAIProvider.generate_response, hcfg, he]
    · intro text htext
      simp [VertexAIProvider.generate_response, hcfg, htext]

/-- Witness for C2 at the unregistered model name `"claude"`. -/
theorem vertex_generate_response_never_raises_witness :
    ({ project_id := "lionspace", location := "us-east1" } :
        VertexAIProvider).generate_response
      (fun _ _ _ => Except.ok (some "hi")) "prompt" "claude" 100 (1/2) true =
      { success := false
        response := none
        model := "claude"
        error := some ("Model " ++ "claude" ++ " not available. Choose from: "
          ++ "[\x27gemini-pro\x27, \x27gemini-flash\x27]")
        model_id := none
        tokens_used := none
        supports_hebrew := none
        metadata := none } :=
  (vertex_generate_response_never_raises
    { project_id := "lionspace", location := "us-east1" }
    (fun _ _ _ => Except.ok (some "hi")) "prompt" "claude" 100 (1/2) true).1
    (by rfl)

/-- Helper: a success record of the model-call wrapper always carries
`tokens_used`, a response text and no `error` key. -/
theorem vertex_success_shape (p : VertexAIProvider) (api : VertexApi)
    (prompt model_name : String) (max_tokens : Int) (temperature : ℚ)
    (enable_hebrew : Bool) :
    (p.generate_response api prompt model_name max_tokens temperature
        enable_hebrew).success = true →
    ∃ tu text,
      (p.generate_response api prompt model_name max_tokens temperature
          enable_hebrew).tokens_used = some tu ∧
      (p.generate_response api prompt model_name max_tokens temperature
          enable_hebrew).response = some text ∧
      (p.generate_response api prompt model_name max_tokens temperature
          enable_hebrew).error = none := by
  intro hs
  rcases hlook : VertexAIProvider.available_models.lookup model_name with _ | cfg
  · simp [VertexAIProvider.generate_response, hlook] at hs
  · rcases hapi : api cfg.model_id
        (if enable_hebrew then VertexAIProvider.prepare_hebrew_prompt prompt
         else prompt)
        (VertexAIProvider.generation_config cfg max_tokens temperature) with e | text
    · simp [VertexAIProvider.generate_response, hlook, hapi] at hs
    · refine ⟨if (text.getD "").isEmpty then 0 else (pySplit (text.getD "")).length,
        text.getD "", ?_, ?_, ?_⟩ <;>
        simp [VertexAIProvider.generate_response, hlook, hapi]

/-- C10: the integration layer's `generate_response` raises rather than
returning failure records: a `RuntimeError` when the provider is not
initialized, a `ValueError` when the model is not in its configuration
table, a `RuntimeError` carrying the wrapper's error message whenever the
wrapper returns `success = false`, and it returns normally exactly when the
wrapper succeeds. -/
theorem dify_generate_response_raises (ig : DifyVertexAIIntegration)
    (api : VertexApi) (model : String)
    (messages : List DifyVertexAIIntegration.DifyMessage)
    (parameters : DifyVertexAIIntegration.DifyParams) :
    (ig.vertex_provider = none →
      ig.generate_response api model messages parameters =
        Except.error (.runtimeError "Vertex AI provider not initialized")) ∧
    (∀ vp, ig.vertex_provider = some vp →
      DifyVertexAIIntegration.model_configs.lookup model = none →
      ig.generate_response api model messages parameters =
        Except.error (.valueError ("Model " ++ model ++ " not supported"))) ∧
    (∀ vp cfg e, ig.vertex_provider = some vp →
      DifyVertexAIIntegration.model_configs.lookup model = some cfg →
      (vp.generate_response api
          (DifyVertexAIIntegration.messages_to_prompt messages) model
          (parameters.max_tokens.getD 1024) (parameters.temperature.getD 0.7)
          true).success = false →
      (vp.generate_response api
          (DifyVertexAIIntegration.messages_to_prompt messages) model
          (parameters.max_tokens.getD 1024) (parameters.temperature.getD 0.7)
          true).error = some e →
      ig.generate_response api model messages parameters =
        Except.error (.runtimeError ("Generation failed: " ++ e))) ∧
    (∀ vp cfg, ig.vertex_provider = some vp →
      DifyVertexAIIntegration.model_configs.lookup model = some cfg →
      (vp.generate_response api
          (DifyVertexAIIntegration.messages_to_prompt messages) model
          (parameters.max_tokens.getD 1024) (parameters.temperature.getD 0.7)
          true).success = true →
      ∃ r, ig.generate_response api model messages parameters = Except.ok r) := by
  refine ⟨?_, ?_, ?_, ?_⟩
  · intro hnone
    simp [DifyVertexAIIntegration.generate_response, hnone]
  · intro vp hvp hlook
    simp [DifyVertexAIIntegration.generate_response, hvp, hlook]
  · intro vp cfg e hvp hlook hfail herr
    simp [DifyVertexAIIntegration.generate_response, hvp, hlook, hfail, herr]
  · intro vp cfg hvp hlook hsucc
    obtain ⟨tu, text, htu, htext, _⟩ := vertex_success_shape vp api
      (DifyVertexAIIntegration.messages_to_prompt messages) model
      (parameters.max_tokens.getD 1024) (parameters.temperature.getD 0.7) true hsucc
    refine ⟨{ model := model
              usage :=
                { prompt_tokens :=
                    (pySplit (DifyVertexAIIntegration.messages_to_prompt messages)).length
                  completion_tokens := tu
                  total_tokens :=
                    (pySplit (DifyVertexAIIntegration.messages_to_prompt messages)).length
                      + tu }
              message := { role := "assistant", content := text } }, ?_⟩
    simp [DifyVertexAIIntegration.generate_response, hvp, hlook, hsucc, htu, htext]

/-- Witness for C10 at an uninitialized integration object. -/
theorem dify_generate_response_raises_witness :
    ({ vertex_provider := none } : DifyVertexAIIntegration).generate_response
      (fun _ _ _ => Except.ok (some "hi")) "gemini-pro" []
      { temperature := none, max_tokens := none } =
      Except.error (.runtimeError "Vertex AI provider not initialized") :=
  (dify_generate_response_raises { vertex_provider := none }
    (fun _ _ _ => Except.ok (some "hi")) "gemini-pro" []
    { temperature := none, max_tokens := none }).1 rfl

/-- Helper: one unfolding of the workflow execution on positive fuel. -/
theorem runFrom_succ (env : Orchestrator.PyEnv) (fuel : Nat) (name : String)
    (st : Orchestrator.AgentState) :
    Orchestrator.runFrom env (fuel + 1) name st =
      (match Orchestrator.route_next (Orchestrator.agent_step env name st) with
       | .terminal => ([name], Orchestrator.agent_step env name st, .terminated)
       | .typeError => ([name], Orchestrator.agent_step env name st, .raisedTypeError)
       | .to next =>
           (name :: (Orchestrator.runFrom env fuel next
               (Orchestrator.agent_step env name st)).1,
            (Orchestrator.runFrom env fuel next
               (Orchestrator.agent_step env name st)).2.1,
            (Orchestrator.runFrom env fuel next
               (Orchestrator.agent_step env name st)).2.2)) := by
  show Orchestrator.runFrom env (fuel + 1) name st = _
  rw [Orchestrator.runFrom]

/-- Helper: the router's decision on a state whose selector is a string. -/
theorem route_next_str (st : Orchestrator.AgentState) (s : String)
    (h : st.next_agent = .str s) :
    Orchestrator.route_next st =
      if Orchestrator.agentNames.contains s then .to s else .terminal := by
  simp [Orchestrator.route_next, h]

/-- C4: in the review step, any reply that parses as a JSON object with
`approved = true` forces the next-step selector to the terminal sentinel,
regardless of any `next_agent` value present in the reply. -/
theorem reviewer_approved_forces_end (env : Orchestrator.PyEnv)
    (state : Orchestrator.AgentState)
    (result : List (String × Orchestrator.JValue))
    (hparse : env.jsonLoads (env.llm (Orchestrator.reviewer_messages env state)) =
      some (.obj result))
    (happroved : result.lookup "approved" = some (.bool true)) :
    (Orchestrator.reviewer_logic env state).next_agent = .str "END" ∧
    Orchestrator.route_next (Orchestrator.reviewer_logic env state) =
      Orchestrator.RouteResult.terminal := by
  have h1 : (Orchestrator.reviewer_logic env state).next_agent = .str "END" := by
    simp [Orchestrator.reviewer_logic, hparse, Orchestrator.dictGet, happroved,
      Orchestrator.pyTruthy]
  refine ⟨h1, ?_⟩
  rw [route_next_str _ _ h1]
  rfl

/-- Witness for C4: a concrete environment whose reviewer reply is the
object with `approved = true` and `next_agent = "planner"`; termination is
forced anyway. -/
theorem reviewer_approved_forces_end_witness :
    (Orchestrator.reviewer_logic
      { llm := fun _ => "reply"
        jsonLoads := fun _ =>
          some (.obj [("approved", .bool true), ("next_agent", .str "planner")])
        pyStr := fun _ => ""
        strDict := fun _ => "" }
      (Orchestrator.initial_state "x")).next_agent = .str "END" ∧
    Orchestrator.route_next
      (Orchestrator.reviewer_logic
        { llm := fun _ => "reply"
          jsonLoads := fun _ =>
            some (.obj [("approved", .bool true), ("next_agent", .str "planner")])
          pyStr := fun _ => ""
          strDict := fun _ => "" }
        (Orchestrator.initial_state "x")) = Orchestrator.RouteResult.terminal :=
  reviewer_approved_forces_end _ _
    [("approved", .bool true), ("next_agent", .str "planner")] rfl rfl

/-- C9: every step handler, on the parse-success path and on the
parse-failure path alike, returns a messages list equal to the input
state's list with exactly the raw model reply appended at the end, so the
shared history is strictly append-only. -/
theorem handlers_append_only (env : Orchestrator.PyEnv)
    (state : Orchestrator.AgentState) :
    (Orchestrator.planner_logic env state).messages =
      state.messages ++ [.ai (env.llm (Orchestrator.planner_messages state))] ∧
    (Orchestrator.researcher_logic env state).messages =
      state.messages ++ [.ai (env.llm (Orchestrator.researcher_messages env state))] ∧
    (Orchestrator.coder_logic env state).messages =
      state.messages ++ [.ai (env.llm (Orchestrator.coder_messages env state))] ∧
    (Orchestrator.reviewer_logic env state).messages =
      state.messages ++ [.ai (env.llm (Orchestrator.reviewer_messages env state))] := by
  refine ⟨?_, ?_, ?_, ?_⟩
  · cases h : env.jsonLoads (env.llm (Orchestrator.planner_messages state)) with
    | none => simp [Orchestrator.planner_logic, h]
    | some v => cases v <;> simp [Orchestrator.planner_logic, h]
  · cases h : env.jsonLoads (env.llm (Orchestrator.researcher_messages env state)) with
    | none => simp [Orchestrator.researcher_logic, h]
    | some v => cases v <;> simp [Orchestrator.researcher_logic, h]
  · cases h : env.jsonLoads (env.llm (Orchestrator.coder_messages env state)) with
    | none => simp [Orchestrator.coder_logic, h]
    | some v => cases v <;> simp [Orchestrator.coder_logic, h]
  · cases h : env.jsonLoads (env.llm (Orchestrator.reviewer_messages env state)) with
    | none => simp [Orchestrator.reviewer_logic, h]
    | some v => cases v <;> simp [Orchestrator.reviewer_logic, h]

/-- Helper: whenever each handler's selector comes out as its listed
successor (researcher, coder, reviewer, END), a run entered at `planner`
with fuel at least four visits planner, researcher, coder and reviewer once
each, in that order, and terminates. -/
theorem run_four_steps (env : Orchestrator.PyEnv)
    (hp : ∀ st, (Orchestrator.planner_logic env st).next_agent = .str "researcher")
    (hr : ∀ st, (Orchestrator.researcher_logic env st).next_agent = .str "coder")
    (hc : ∀ st, (Orchestrator.coder_logic env st).next_agent = .str "reviewer")
    (hv : ∀ st, (Orchestrator.reviewer_logic env st).next_agent = .str "END")
    (n : Nat) (st0 : Orchestrator.AgentState) :
    Orchestrator.runFrom env (n + 4) "planner" st0 =
      (["planner", "researcher", "coder", "reviewer"],
       Orchestrator.agent_step env "reviewer" (Orchestrator.agent_step env "coder"
         (Orchestrator.agent_step env "researcher"
           (Orchestrator.agent_step env "planner" st0))),
       Orchestrator.RunOutcome.terminated) := by
  have hstepP : ∀ st, Orchestrator.agent_step env "planner" st =
      Orchestrator.planner_logic env st := fun _ => rfl
  have hstepR : ∀ st, Orchestrator.agent_step env "researcher" st =
      Orchestrator.researcher_logic env st := fun _ => rfl
  have hstepC : ∀ st, Orchestrator.agent_step env "coder" st =
      Orchestrator.coder_logic env st := fun _ => rfl
  have hstepV : ∀ st, Orchestrator.agent_step env "reviewer" st =
      Orchestrator.reviewer_logic env st := fun _ => rfl
  have hrtR : ∀ st : Orchestrator.AgentState, st.next_agent = .str "researcher" →
      Orchestrator.route_next st = .to "researcher" := by
    intro st h; rw [route_next_str st _ h]; rfl
  have hrtC : ∀ st : Orchestrator.AgentState, st.next_agent = .str "coder" →
      Orchestrator.route_next st = .to "coder" := by
    intro st h; rw [route_next_str st _ h]; rfl
  have hrtV : ∀ st : Orchestrator.AgentState, st.next_agent = .str "reviewer" →
      Orchestrator.route_next st = .to "reviewer" := by
    intro st h; rw [route_next_str st _ h]; rfl
  have hrtEnd : ∀ st : Orchestrator.AgentState, st.next_agent = .str "END" →
      Orchestrator.route_next st = .terminal := by
    intro st h; rw [route_next_str st _ h]; rfl
  have h4 : ∀ st, Orchestrator.runFrom env (n + 1) "reviewer" st =
      (["reviewer"], Orchestrator.agent_step env "reviewer" st, .terminated) := by
    intro st
    rw [runFrom_succ env n "reviewer" st, hrtEnd _ (by rw [hstepV]; exact hv st)]
  have h3 : ∀ st, Orchestrator.runFrom env (n + 2) "coder" st =
      (["coder", "reviewer"],
       Orchestrator.agent_step env "reviewer" (Orchestrator.agent_step env "coder" st),
       .terminated) := by
    intro st
    rw [runFrom_succ env (n + 1) "coder" st, hrtV _ (by rw [hstepC]; exact hc st)]
    simp only [h4]
  have h2 : ∀ st, Orchestrator.runFrom env (n + 3) "researcher" st =
      (["researcher", "coder", "reviewer"],
       Orchestrator.agent_step env "reviewer" (Orchestrator.agent_step env "coder"
         (Orchestrator.agent_step env "researcher" st)),
       .terminated) := by
    intro st
    rw [runFrom_succ env (n + 2) "researcher" st,
      hrtC _ (by rw [hstepR]; exact hr st)]
    simp only [h3]
  rw [runFrom_succ env (n + 3) "planner" st0, hrtR _ (by rw [hstepP]; exact hp st0)]
  simp only [h2]

/-- C3: when every model reply fails to parse as JSON, each step handler
surfaces no error and sets the next-step selector to its fixed default
successor (planner to researcher, researcher to coder, coder to reviewer,
reviewer to the END sentinel), and a run in which every reply is invalid
JSON visits planner, researcher, coder and reviewer once each and
terminates after the review step. -/
theorem router_invalid_json_fallback (env : Orchestrator.PyEnv)
    (hparse : ∀ s, env.jsonLoads s = none) :
    (∀ state, (Orchestrator.planner_logic env state).next_agent = .str "researcher") ∧
    (∀ state, (Orchestrator.researcher_logic env state).next_agent = .str "coder") ∧
    (∀ state, (Orchestrator.coder_logic env state).next_agent = .str "reviewer") ∧
    (∀ state, (Orchestrator.reviewer_logic env state).next_agent = .str "END") ∧
    (∀ n user_input,
      (Orchestrator.run_workflow env (n + 4) user_input).1 =
        ["planner", "researcher", "coder", "reviewer"] ∧
      (Orchestrator.run_workflow env (n + 4) user_input).2.2 =
        Orchestrator.RunOutcome.terminated) := by
  have hp : ∀ st, (Orchestrator.planner_logic env st).next_agent = .str "researcher" := by
    intro st; simp [Orchestrator.planner_logic, hparse]
  have hr : ∀ st, (Orchestrator.researcher_logic env st).next_agent = .str "coder" := by
    intro st; simp [Orchestrator.researcher_logic, hparse]
  have hc : ∀ st, (Orchestrator.coder_logic env st).next_agent = .str "reviewer" := by
    intro st; simp [Orchestrator.coder_logic, hparse]
  have hv : ∀ st, (Orchestrator.reviewer_logic env st).next_agent = .str "END" := by
    intro st; simp [Orchestrator.reviewer_logic, hparse]
  refine ⟨hp, hr, hc, hv, ?_⟩
  intro n input
  have key := run_four_steps env hp hr hc hv n (Orchestrator.initial_state input)
  constructor
  · show (Orchestrator.runFrom env (n + 4) "planner"
      (Orchestrator.initial_state input)).1 = _
    rw [key]
  · show (Orchestrator.runFrom env (n + 4) "planner"
      (Orchestrator.initial_state input)).2.2 = _
    rw [key]

/-- Witness for C3: a concrete environment whose parser always fails; the
run with fuel four traverses all four steps and terminates. -/
theorem router_invalid_json_fallback_witness :
    (Orchestrator.run_workflow
      { llm := fun _ => "not json"
        jsonLoads := fun _ => none
        pyStr := fun _ => ""
        strDict := fun _ => "" } 4 "build a task manager").1 =
      ["planner", "researcher", "coder", "reviewer"] ∧
    (Orchestrator.run_workflow
      { llm := fun _ => "not json"
        jsonLoads := fun _ => none
        pyStr := fun _ => ""
        strDict := fun _ => "" } 4 "build a task manager").2.2 =
      Orchestrator.RunOutcome.terminated :=
  (router_invalid_json_fallback
    { llm := fun _ => "not json"
      jsonLoads := fun _ => none
      pyStr := fun _ => ""
      strDict := fun _ => "" } (fun _ => rfl)).2.2.2.2 0 "build a task manager"

/-- C5: if the model's reply at every step is the JSON text
`\x7b"approved": true\x7d` (which parses to the object mapping `approved`
to `true`), a run started by the router visits the plan, research, code and
review steps exactly once each, in that order, and then terminates. -/
theorem router_terminates_one_pass (env : Orchestrator.PyEnv)
    (hllm : ∀ ms, env.llm ms = "\x7b\"approved\": true\x7d")
    (hjson : env.jsonLoads "\x7b\"approved\": true\x7d" =
      some (.obj [("approved", .bool true)])) :
    ∀ n user_input,
      (Orchestrator.run_workflow env (n + 4) user_input).1 =
        ["planner", "researcher", "coder", "reviewer"] ∧
      (Orchestrator.run_workflow env (n + 4) user_input).2.2 =
        Orchestrator.RunOutcome.terminated := by
  have hp : ∀ st, (Orchestrator.planner_logic env st).next_agent = .str "researcher" := by
    intro st
    simp only [Orchestrator.planner_logic, hllm, hjson]
    rfl
  have hr : ∀ st, (Orchestrator.researcher_logic env st).next_agent = .str "coder" := by
    intro st
    simp only [Orchestrator.researcher_logic, hllm, hjson]
    rfl
  have hc : ∀ st, (Orchestrator.coder_logic env st).next_agent = .str "reviewer" := by
    intro st
    simp only [Orchestrator.coder_logic, hllm, hjson]
    rfl
  have hv : ∀ st, (Orchestrator.reviewer_logic env st).next_agent = .str "END" := by
    intro st
    simp only [Orchestrator.reviewer_logic, hllm, hjson]
    rfl
  intro n input
  have key := run_four_steps env hp hr hc hv n (Orchestrator.initial_state input)
  constructor
  · show (Orchestrator.runFrom env (n + 4) "planner"
      (Orchestrator.initial_state input)).1 = _
    rw [key]
  · show (Orchestrator.runFrom env (n + 4) "planner"
      (Orchestrator.initial_state input)).2.2 = _
    rw [key]

/-- Witness for C5: a concrete environment always replying the approval
object; the run with fuel four is one pass through the four steps. -/
theorem router_terminates_one_pass_witness :
    (Orchestrator.run_workflow
      { llm := fun _ => "\x7b\"approved\": true\x7d"
        jsonLoads := fun s =>
          if s = "\x7b\"approved\": true\x7d" then
            some (.obj [("approved", .bool true)])
          else none
        pyStr := fun _ => ""
        strDict := fun _ => "" } 4 "write a fibonacci function").1 =
      ["planner", "researcher", "coder", "reviewer"] ∧
    (Orchestrator.run_workflow
      { llm := fun _ => "\x7b\"approved\": true\x7d"
        jsonLoads := fun s =>
          if s = "\x7b\"approved\": true\x7d" then
            some (.obj [("approved", .bool true)])
          else none
        pyStr := fun _ => ""
        strDict := fun _ => "" } 4 "write a fibonacci function").2.2 =
      Orchestrator.RunOutcome.terminated :=
  router_terminates_one_pass
    { llm := fun _ => "\x7b\"approved\": true\x7d"
      jsonLoads := fun s =>
        if s = "\x7b\"approved\": true\x7d" then
          some (.obj [("approved", .bool true)])
        else none
      pyStr := fun _ => ""
      strDict := fun _ => "" } (fun _ => rfl) (by rfl) 0 "write a fibonacci function"

end DifyGcpHebrew
